import Mathlib

/-!
Shallow embedding of `src/main.py` of the hackerschoolbot repository.

The program is a linear pipeline: load a YAML snapshot of known courses,
scrape a paginated course listing, diff by course id (an MD5 digest of the
concatenated text fields), post one chat message per new course, and persist
the current course list.  Pure functions of the source are translated to Lean
functions; the effects of a run (log lines, messages sent, the snapshot file,
process termination) are made explicit as data returned by the translated
`main`.
-/

namespace HackerSchoolBot

/-! ### MD5 (models Python `hashlib.md5(...).hexdigest()`)

All arithmetic is on `Nat` with explicit reduction `% 2^32` (resp. `% 2^64`
for the length field), bytes are `Nat`s below 256. -/

/-- The 64 MD5 round constants `⌊2³² · |sin (i+1)|⌋`. -/
def md5K : List Nat := [
  3614090360, 3905402710, 606105819, 3250441966, 4118548399, 1200080426, 2821735955, 4249261313,
  1770035416, 2336552879, 4294925233, 2304563134, 1804603682, 4254626195, 2792965006, 1236535329,
  4129170786, 3225465664, 643717713, 3921069994, 3593408605, 38016083, 3634488961, 3889429448,
  568446438, 3275163606, 4107603335, 1163531501, 2850285829, 4243563512, 1735328473, 2368359562,
  4294588738, 2272392833, 1839030562, 4259657740, 2763975236, 1272893353, 4139469664, 3200236656,
  681279174, 3936430074, 3572445317, 76029189, 3654602809, 3873151461, 530742520, 3299628645,
  4096336452, 1126891415, 2878612391, 4237533241, 1700485571, 2399980690, 4293915773, 2240044497,
  1873313359, 4264355552, 2734768916, 1309151649, 4149444226, 3174756917, 718787259, 3951481745]

/-- The per-round left-rotation amounts of MD5. -/
def md5S : List Nat := [
  7, 12, 17, 22, 7, 12, 17, 22, 7, 12, 17, 22, 7, 12, 17, 22,
  5, 9, 14, 20, 5, 9, 14, 20, 5, 9, 14, 20, 5, 9, 14, 20,
  4, 11, 16, 23, 4, 11, 16, 23, 4, 11, 16, 23, 4, 11, 16, 23,
  6, 10, 15, 21, 6, 10, 15, 21, 6, 10, 15, 21, 6, 10, 15, 21]

/-- Left-rotate a 32-bit word (a `Nat` below `2^32`) by `s` places. -/
def rotl32 (x s : Nat) : Nat :=
  (((x <<< s) % 4294967296) ||| (x >>> (32 - s)))

/-- Decode a 64-byte chunk into sixteen little-endian 32-bit words. -/
def md5Words (chunk : List Nat) : List Nat :=
  (List.range 16).map (fun j =>
    chunk.getD (4 * j) 0 + chunk.getD (4 * j + 1) 0 * 256 +
      chunk.getD (4 * j + 2) 0 * 65536 + chunk.getD (4 * j + 3) 0 * 16777216)

/-- One of the 64 MD5 rounds on the state `(a, b, c, d)`. -/
def md5Round (M : List Nat) (state : Nat × Nat × Nat × Nat) (i : Nat) :
    Nat × Nat × Nat × Nat :=
  let (a, b, c, d) := state
  let f :=
    if i < 16 then (b &&& c) ||| ((b ^^^ 4294967295) &&& d)
    else if i < 32 then (d &&& b) ||| ((d ^^^ 4294967295) &&& c)
    else if i < 48 then b ^^^ c ^^^ d
    else c ^^^ (b ||| (d ^^^ 4294967295))
  let g :=
    if i < 16 then i
    else if i < 32 then (5 * i + 1) % 16
    else if i < 48 then (3 * i + 5) % 16
    else (7 * i) % 16
  let tmp := (f + a + md5K.getD i 0 + M.getD g 0) % 4294967296
  (d, (b + rotl32 tmp (md5S.getD i 0)) % 4294967296, b, c)

/-- Process one 64-byte chunk, updating the running MD5 state. -/
def md5Chunk (state : Nat × Nat × Nat × Nat) (chunk : List Nat) :
    Nat × Nat × Nat × Nat :=
  let M := md5Words chunk
  let (a, b, c, d) := (List.range 64).foldl (md5Round M) state
  ((state.1 + a) % 4294967296, (state.2.1 + b) % 4294967296,
    (state.2.2.1 + c) % 4294967296, (state.2.2.2 + d) % 4294967296)

/-- Split a byte list into 64-byte chunks; `fuel` bounds the recursion and any
`fuel ≥` the number of chunks (e.g. the list length) is enough. -/
def toChunks : Nat → List Nat → List (List Nat)
  | _, [] => []
  | 0, _ :: _ => []
  | fuel + 1, a :: rest => ((a :: rest).take 64) :: toChunks fuel ((a :: rest).drop 64)

/-- The four little-endian bytes of a 32-bit word. -/
def wordLEBytes (w : Nat) : List Nat :=
  [w &&& 255, (w >>> 8) &&& 255, (w >>> 16) &&& 255, (w >>> 24) &&& 255]

/-- MD5 digest (16 bytes) of a byte list: pad with `0x80`, zeros and the
64-bit little-endian bit length, then fold the chunks from the standard
initial state. -/
def md5Bytes (msg : List Nat) : List Nat :=
  let padded := msg ++ [128] ++ List.replicate ((120 - (msg.length + 1) % 64) % 64) 0 ++
    (List.range 8).map (fun i => (((8 * msg.length) % 18446744073709551616) >>> (8 * i)) &&& 255)
  let (a, b, c, d) := (toChunks padded.length padded).foldl md5Chunk
    (1732584193, 4023233417, 2562383102, 271733878)
  wordLEBytes a ++ wordLEBytes b ++ wordLEBytes c ++ wordLEBytes d

/-- UTF-8 encoding of a code point, as bytes (models Python `str.encode()`). -/
def charUtf8 (c : Char) : List Nat :=
  let n := c.toNat
  if n < 128 then [n]
  else if n < 2048 then [192 + n / 64, 128 + n % 64]
  else if n < 65536 then [224 + n / 4096, 128 + (n / 64) % 64, 128 + n % 64]
  else [240 + n / 262144, 128 + (n / 4096) % 64, 128 + (n / 64) % 64, 128 + n % 64]

/-- UTF-8 bytes of a string. -/
def strUtf8 (s : String) : List Nat :=
  (s.data.map charUtf8).flatten

/-- Lower-case hexadecimal digit for `n < 16`. -/
def hexDigitChar (n : Nat) : Char :=
  if n < 10 then Char.ofNat (48 + n) else Char.ofNat (87 + n)

/-- Two-character lower-case hex rendering of a byte. -/
def byteToHex (b : Nat) : String :=
  String.mk [hexDigitChar (b / 16 % 16), hexDigitChar (b % 16)]

/-- `md5str s` models `hashlib.md5(s.encode()).hexdigest()`. -/
def md5str (s : String) : String :=
  String.join ((md5Bytes (strUtf8 s)).map byteToHex)

example : md5str "abcd" = "e2fc714c4727ee9395f324cd2e7f331f" := by decide

/-! ### Data model -/

/-- A course record as built by `parse_course` and stored in `courses.yml`:
the dict `{id, title, date, description}`. -/
structure Course where
  id : String
  title : String
  date : String
  description : String
deriving DecidableEq, Repr

/-- The text content extracted from one `div.hs-event` block: the raw text of
the `h3.hs-event-titel` heading, of the element following the `span` inside
`div.hs-dates`, and of the `span.hs-curse-discription` element (stripping
happens in `parse_course`, as in the source). -/
structure CourseElement where
  titleText : String
  dateText : String
  descriptionText : String
deriving DecidableEq, Repr

/-- One fetched listing page, reduced to what the scraper reads from the HTML:
the number of `li` items of the `ul.pagination` container when that container
is present, and the list of `div.hs-event` course blocks in document order. -/
structure Page where
  pagination : Option Nat
  courseBlocks : List CourseElement
deriving DecidableEq, Repr

/-- The deserialized content of `courses.yml`: `yaml.safe_load` yields `None`
for an empty document and otherwise (for this program's files) a list of
course records. -/
inductive Yaml where
  | null
  | list (courses : List Course)
deriving DecidableEq, Repr

/-- A log line, written via `logging.info` / `logging.error`. -/
inductive LogEntry where
  | info (msg : String)
  | error (msg : String)
deriving DecidableEq, Repr

/-- How a run of the process ends: `exited c` for `sys.exit(c)` or normal
completion (`c = 0`), `raised e` for an uncaught exception of class `e`. -/
inductive Outcome where
  | exited (code : Nat)
  | raised (exc : String)
deriving DecidableEq, Repr

/-- The observable effects of one run of `main`: the log, the chat messages
actually sent, the final content of `courses.yml` (`none` = file absent), and
how the process ended. -/
structure RunResult where
  log : List LogEntry
  messagesSent : List String
  file : Option Yaml
  outcome : Outcome
deriving DecidableEq, Repr

/-- The external world a run interacts with: what each URL fetch returns
(`Except.error e` models a `requests` exception with message `e`), and the
content of `courses.yml` at process start (`none` = file absent). -/
structure World where
  site : String → Except String Page
  file : Option Yaml

/-- The monitored URL (`COURSE_URL` in the source). -/
def COURSE_URL : String :=
  "https://hacker-school.de/unterstuetzen/inspirer/checkin-inspirer-yourschool/?formats%5B%5D=ys"

/-! ### Parsing (`parse_course`) -/

/-- Models Python `str.strip()`: remove leading and trailing whitespace. -/
def pyStrip (s : String) : String :=
  String.mk (((s.data.dropWhile Char.isWhitespace).reverse.dropWhile
    Char.isWhitespace).reverse)

/-- Translation of `parse_course`: strip the three text fields, concatenate
them (no separator) and take the MD5 hex digest as `id`. -/
def parse_course (course : CourseElement) : Course :=
  let title := pyStrip course.titleText
  let date := pyStrip course.dateText
  let description := pyStrip course.descriptionText
  let unique_string := title ++ date ++ description
  let course_id := md5str unique_string
  { id := course_id, title := title, date := date, description := description }

/-! ### Scraping (`get_courses`, `get_course_page`) -/

/-- Translation of `get_course_page(page_number, page=None)`: reuse the given
response if there is one, otherwise fetch `COURSE_URL&event_page=N` (a failed
fetch logs the error and exits with status 1), then parse every `div.hs-event`
block of the page in document order. -/
def get_course_page (site : String → Except String Page) (page_number : Nat)
    (page : Option Page) : Except (List LogEntry × Nat) (List Course) :=
  match page with
  | some p => .ok (p.courseBlocks.map parse_course)
  | none =>
    match site (COURSE_URL ++ "&event_page=" ++ toString page_number) with
    | .error e => .error ([.error ("Error fetching courses: " ++ e)], 1)
    | .ok p => .ok (p.courseBlocks.map parse_course)

/-- The `for page in range(2, last_page+1): courses += get_course_page(page)`
loop of `get_courses`, over the listed page numbers; the first failing fetch
aborts the run (propagating the log and exit status). -/
def fetchPages (site : String → Except String Page) :
    List Nat → Except (List LogEntry × Nat) (List Course)
  | [] => .ok []
  | p :: rest =>
    match get_course_page site p none with
    | .error x => .error x
    | .ok cs =>
      match fetchPages site rest with
      | .error x => .error x
      | .ok more => .ok (cs ++ more)

/-- Translation of `get_courses`: fetch `COURSE_URL` (a failure logs and exits
with status 1); if the `ul.pagination` container is missing, log an error and
return the empty list; otherwise parse page 1 from the same response, compute
`last_page` as the number of `li` items minus 2 (Python `int` arithmetic, so
possibly negative — hence `Int`), and when `last_page ≥ 2` append the courses
of pages `2..last_page`.  The result carries the log lines written on the
non-exiting paths. -/
def get_courses (site : String → Except String Page) :
    Except (List LogEntry × Nat) (List LogEntry × List Course) :=
  match site COURSE_URL with
  | .error e => .error ([.error ("Error fetching courses: " ++ e)], 1)
  | .ok response =>
    match response.pagination with
    | none => .ok ([.error "Pagination container not found"], [])
    | some pagination_items =>
      match get_course_page site 1 (some response) with
      | .error x => .error x
      | .ok courses =>
        let last_page : Int := (pagination_items : Int) - 2
        if last_page < 2 then .ok ([], courses)
        else
          match fetchPages site (List.range' 2 (last_page.toNat - 1)) with
          | .error x => .error x
          | .ok more => .ok ([], courses ++ more)

/-! ### Snapshot store (`load_existing_courses`, `save_courses`) -/

/-- Translation of `load_existing_courses`: when `courses.yml` exists return
`yaml.safe_load` of its content verbatim (which is `None` for an empty file),
and only when the file is absent return the literal empty list. -/
def load_existing_courses (file : Option Yaml) : Yaml :=
  match file with
  | some content => content
  | none => .list []

/-- Translation of `save_courses`: the file content written by `yaml.dump` of
the given course list. -/
def save_courses (courses : List Course) : Yaml :=
  .list courses

/-! ### Notifier (`post_new_courses`) -/

/-- The message synthesized for one course in `post_new_courses`. -/
def courseMessage (course : Course) : String :=
  "New course available:\n\n" ++ course.title ++ "\n" ++ course.date ++
    "\n\nCheck it out at " ++ COURSE_URL

/-- Models `message.replace("\n", "\\n")`: every newline character becomes the
two characters backslash, `n`. -/
def escapeNewlines (s : String) : String :=
  String.mk ((s.data.map (fun c => if c = '\n' then ['\\', 'n'] else [c])).flatten)

/-- The effects of running the `post_new_courses` coroutine body: the messages
actually delivered, the log lines, and `some 1` when a failed send made it
call `sys.exit(1)`. -/
structure PostResult where
  messages : List String
  log : List LogEntry
  exit : Option Nat
deriving DecidableEq, Repr

/-- Translation of the body of `post_new_courses`: send one message per
course, sequentially; `sendErr i` is the outcome of the `i`-th send attempt
(`none` = delivered, `some e` = exception `e`).  A success logs the
newline-escaped message; the first failure logs the error and exits with
status 1, abandoning the remaining courses. -/
def post_new_courses (sendErr : Nat → Option String) :
    Nat → List Course → PostResult
  | _, [] => ⟨[], [], none⟩
  | i, course :: rest =>
    let message := courseMessage course
    match sendErr i with
    | none =>
      let r := post_new_courses sendErr (i + 1) rest
      ⟨message :: r.messages,
        .info ("Message sent: " ++ escapeNewlines message) :: r.log, r.exit⟩
    | some e => ⟨[], [.error ("Error: " ++ e)], some 1⟩

/-! ### Differencer and orchestrator (`main`) -/

/-- Translation of the diff loop of `main`:
`for e in current: if not any(e["id"] == f["id"] for f in existing): append e`. -/
def diff_new_courses (current_courses existing_courses : List Course) :
    List Course :=
  current_courses.foldl
    (fun new_courses e =>
      if !(existing_courses.any (fun f => e.id == f.id)) then new_courses ++ [e]
      else new_courses)
    []

/-- Translation of `main`.  Notes on the two non-`Except` failure modes:

* when `load_existing_courses` returned `None` (empty `courses.yml`) and the
  scrape is non-empty, the diff's generator `for f in existing_courses`
  iterates over `None` and raises `TypeError`;
* when `new_courses` is non-empty, line 138 evaluates `loop.run(...)`;
  asyncio event loops have no attribute `run` (only `run_until_complete`
  etc.), so the line raises `AttributeError` before the coroutine body ever
  executes — no message is sent and `save_courses` is never reached.

(`asyncio.get_event_loop()` itself succeeds, with a deprecation warning, on
the Python versions contemporary to this code.) -/
def main (w : World) : RunResult :=
  let log0 : List LogEntry := [.info "Running!"]
  let existing := load_existing_courses w.file
  match get_courses w.site with
  | .error (lg, code) =>
    { log := log0 ++ lg, messagesSent := [], file := w.file, outcome := .exited code }
  | .ok (lg, current_courses) =>
    match existing with
    | .null =>
      match current_courses with
      | [] =>
        { log := log0 ++ lg ++ [.info "No new courses found."], messagesSent := [],
          file := w.file, outcome := .exited 0 }
      | _ :: _ =>
        { log := log0 ++ lg, messagesSent := [], file := w.file,
          outcome := .raised "TypeError" }
    | .list existing_courses =>
      match diff_new_courses current_courses existing_courses with
      | [] =>
        { log := log0 ++ lg ++ [.info "No new courses found."], messagesSent := [],
          file := w.file, outcome := .exited 0 }
      | _ :: _ =>
        { log := log0 ++ lg, messagesSent := [], file := w.file,
          outcome := .raised "AttributeError" }

/-! ### Helper lemmas -/

/-- The append-accumulating fold of the diff loop is a `filter`. -/
theorem diff_foldl_eq_filter (existing : List Course) :
    ∀ (current acc : List Course),
      current.foldl
        (fun new_courses e =>
          if !(existing.any (fun f => e.id == f.id)) then new_courses ++ [e]
          else new_courses)
        acc =
      acc ++ current.filter (fun e => !(existing.any (fun f => e.id == f.id)))
  | [], acc => by simp
  | e :: rest, acc => by
    simp only [List.foldl_cons, List.filter_cons]
    by_cases h : (!(existing.any (fun f => e.id == f.id))) = true
    · rw [if_pos h, if_pos h, diff_foldl_eq_filter existing rest (acc ++ [e])]
      simp
    · rw [if_neg h, if_neg h, diff_foldl_eq_filter existing rest acc]

/-- The diff loop of `main` as a `filter` over `current`. -/
theorem diff_eq_filter (current existing : List Course) :
    diff_new_courses current existing =
      current.filter (fun e => !(existing.any (fun f => e.id == f.id))) := by
  unfold diff_new_courses
  rw [diff_foldl_eq_filter existing current, List.nil_append]

/-- A course whose id occurs in `existing` — in particular any course diffed
against a list containing it — is not selected by the diff predicate. -/
theorem diff_self_eq_nil (cur : List Course) : diff_new_courses cur cur = [] := by
  rw [diff_eq_filter, List.filter_eq_nil_iff]
  intro e he
  have hx : (cur.any fun f => e.id == f.id) = true :=
    List.any_eq_true.mpr ⟨e, he, by simp⟩
  simp [hx]

/-- Successful fetches make the page loop return the concatenation of the
parsed pages, in the order of the page-number list. -/
theorem fetchPages_ok (site : String → Except String Page) (pgs : Nat → Page) :
    ∀ ks : List Nat,
      (∀ k ∈ ks, site (COURSE_URL ++ "&event_page=" ++ toString k) = .ok (pgs k)) →
      fetchPages site ks =
        .ok ((ks.map (fun k => (pgs k).courseBlocks.map parse_course)).flatten) := by
  intro ks
  induction ks with
  | nil => intro _; rfl
  | cons k rest ih =>
    intro h
    have hk := h k (by simp)
    simp only [fetchPages, get_course_page, hk,
      ih (fun x hx => h x (by simp [hx])), List.map_cons, List.flatten_cons]

/-! ### Claims -/

/-- C2: for every pair of lists `current` and `existing`, the computed
`new_courses` list contains exactly those elements of `current` whose id
equals no id of any element of `existing` (a `filter` of `current` by that
predicate), and the elements appear in the same relative order as in
`current` (the result is a sublist of `current`). -/
theorem c2_diff_exactly_new (current existing : List Course) :
    diff_new_courses current existing =
      current.filter (fun e => decide (∀ f ∈ existing, ¬e.id = f.id)) ∧
    (diff_new_courses current existing).Sublist current := by
  have h := diff_eq_filter current existing
  constructor
  · rw [h]
    apply List.filter_congr
    intro e _
    rw [Bool.eq_iff_iff]
    simp [List.any_eq_true]
  · rw [h]
    exact List.filter_sublist _

/-- C4: the id produced by `parse_course` is a pure function of the
`(title, date, description)` triple of the resulting course: any two parsed
elements agreeing on those three fields receive the same id, so re-scraping
an unchanged course reproduces its id. -/
theorem c4_id_pure_function_of_triple (e1 e2 : CourseElement)
    (ht : (parse_course e1).title = (parse_course e2).title)
    (hd : (parse_course e1).date = (parse_course e2).date)
    (hde : (parse_course e1).description = (parse_course e2).description) :
    (parse_course e1).id = (parse_course e2).id := by
  simp only [parse_course] at ht hd hde ⊢
  rw [ht, hd, hde]

theorem c4_witness :
    (parse_course ⟨" Robotik ", "01.01.", "Bau"⟩).id =
      (parse_course ⟨"Robotik", "01.01.", "Bau "⟩).id :=
  c4_id_pure_function_of_triple _ _ (by decide) (by decide) (by decide)

/-- C5 is refuted at this input: the two triples `("ab", "c", "d")` and
`("a", "bc", "d")` are distinct, yet both concatenate to `"abcd"`, so
`parse_course` assigns both courses the same id even though no MD5 digest
collision is involved. -/
theorem c5_counterexample :
    ((parse_course ⟨"ab", "c", "d"⟩).title, (parse_course ⟨"ab", "c", "d"⟩).date,
        (parse_course ⟨"ab", "c", "d"⟩).description) ≠
      ((parse_course ⟨"a", "bc", "d"⟩).title, (parse_course ⟨"a", "bc", "d"⟩).date,
        (parse_course ⟨"a", "bc", "d"⟩).description) ∧
    (parse_course ⟨"ab", "c", "d"⟩).id = (parse_course ⟨"a", "bc", "d"⟩).id := by
  exact ⟨by decide, rfl⟩

/-- C5 (amended): the string fed to the content hash is the unseparated
concatenation of the trimmed fields, so two courses get different ids
whenever those concatenations have different digests, and triples with equal
concatenation always get equal ids — id collisions can arise both from digest
collisions and from distinct triples with equal concatenation. -/
theorem c5_amended_id_collision_iff_digest (e1 e2 : CourseElement) :
    (md5str (pyStrip e1.titleText ++ pyStrip e1.dateText ++ pyStrip e1.descriptionText) ≠
        md5str (pyStrip e2.titleText ++ pyStrip e2.dateText ++ pyStrip e2.descriptionText) →
      (parse_course e1).id ≠ (parse_course e2).id) ∧
    (pyStrip e1.titleText ++ pyStrip e1.dateText ++ pyStrip e1.descriptionText =
        pyStrip e2.titleText ++ pyStrip e2.dateText ++ pyStrip e2.descriptionText →
      (parse_course e1).id = (parse_course e2).id) := by
  constructor
  · intro h hid
    exact h (by simpa only [parse_course] using hid)
  · intro h
    simp only [parse_course]
    rw [h]

theorem c5_amended_witness :
    (parse_course ⟨"a", "", ""⟩).id ≠ (parse_course ⟨"b", "", ""⟩).id ∧
    (parse_course ⟨"xy", "z", "w"⟩).id = (parse_course ⟨"x", "yz", "w"⟩).id :=
  ⟨(c5_amended_id_collision_iff_digest ⟨"a", "", ""⟩ ⟨"b", "", ""⟩).1 (by decide),
    (c5_amended_id_collision_iff_digest ⟨"xy", "z", "w"⟩ ⟨"x", "yz", "w"⟩).2 (by decide)⟩

/-- C6: when the first page's pagination container has `n` list items, the
last content page number is `n - 2` (as a Python integer, possibly
negative), and whenever `n - 2 < 2` — in particular for `n = 2`, where it is
`0` — `get_courses` returns exactly page 1's parsed courses. -/
theorem c6_last_page_is_items_minus_two (site : String → Except String Page)
    (p1 : Page) (n : Nat)
    (h1 : site COURSE_URL = .ok p1) (h2 : p1.pagination = some n)
    (h3 : (n : Int) - 2 < 2) :
    get_courses site = .ok ([], p1.courseBlocks.map parse_course) := by
  simp only [get_courses, h1, h2, get_course_page, if_pos h3]

def pageC6 : Page := ⟨some 2, [⟨"Title", "Date", "Text"⟩]⟩

def siteC6 : String → Except String Page := fun _ => .ok pageC6

theorem c6_witness :
    get_courses siteC6 = .ok ([], pageC6.courseBlocks.map parse_course) :=
  c6_last_page_is_items_minus_two siteC6 pageC6 2 rfl rfl (by decide)

/-- C7: when no pagination container is found on the first page,
`get_courses` logs the error and returns the empty course list through the
normal (non-exiting) path — unlike a fetch failure, which exits with status
1 — and no course block of the page is parsed. -/
theorem c7_missing_pagination_nonfatal (site : String → Except String Page)
    (p1 : Page)
    (h1 : site COURSE_URL = .ok p1) (h2 : p1.pagination = none) :
    get_courses site = .ok ([.error "Pagination container not found"], []) := by
  simp only [get_courses, h1, h2]

def pageC7 : Page := ⟨none, [⟨"Title", "Date", "Text"⟩]⟩

def siteC7 : String → Except String Page := fun _ => .ok pageC7

theorem c7_witness :
    get_courses siteC7 = .ok ([.error "Pagination container not found"], []) :=
  c7_missing_pagination_nonfatal siteC7 pageC7 rfl rfl

/-- C9: when the computed last page is at least 2 and every fetch of
`COURSE_URL ++ "&event_page=" ++ k` for `k ∈ [2, last_page]` succeeds with
page `pgs k`, the accumulated list is page 1's parsed courses followed by the
parsed courses of pages `2 .. last_page` inclusive (here `last_page = n - 2`,
so the page numbers are `List.range' 2 (n - 3)`), preserving page order and
within-page document order, with no deduplication. -/
theorem c9_pages_two_to_last_appended (site : String → Except String Page)
    (p1 : Page) (n : Nat) (pgs : Nat → Page)
    (h1 : site COURSE_URL = .ok p1) (h2 : p1.pagination = some n)
    (h3 : 2 ≤ (n : Int) - 2)
    (h4 : ∀ k, 2 ≤ k → k ≤ n - 2 →
      site (COURSE_URL ++ "&event_page=" ++ toString k) = .ok (pgs k)) :
    get_courses site = .ok ([], p1.courseBlocks.map parse_course ++
      ((List.range' 2 (n - 3)).map
        (fun k => (pgs k).courseBlocks.map parse_course)).flatten) := by
  have hn : 4 ≤ n := by omega
  have hfetch : fetchPages site (List.range' 2 (((n : Int) - 2).toNat - 1)) =
      .ok ((List.range' 2 (n - 3)).map
        (fun k => (pgs k).courseBlocks.map parse_course)).flatten := by
    have hrange : ((n : Int) - 2).toNat - 1 = n - 3 := by omega
    rw [hrange]
    apply fetchPages_ok
    intro k hk
    rcases List.mem_range'.mp hk with ⟨i, hi, rfl⟩
    exact h4 _ (by omega) (by omega)
  simp only [get_courses, h1, h2, get_course_page,
    if_neg (by omega : ¬((n : Int) - 2 < 2)), hfetch]

def pageC9a : Page := ⟨some 4, [⟨"A", "B", "C"⟩]⟩

def pageC9b : Page := ⟨none, [⟨"D", "E", "F"⟩]⟩

def siteC9 : String → Except String Page :=
  fun url => if url = COURSE_URL then .ok pageC9a else .ok pageC9b

theorem c9_witness :
    get_courses siteC9 = .ok ([], pageC9a.courseBlocks.map parse_course ++
      ((List.range' 2 1).map
        (fun _ => pageC9b.courseBlocks.map parse_course)).flatten) :=
  c9_pages_two_to_last_appended siteC9 pageC9a 4 (fun _ => pageC9b) rfl rfl
    (by decide)
    (fun k h1 h2 => by
      have hk : k = 2 := by omega
      subst hk
      simp only [siteC9]
      rw [if_neg (by decide)])

/-- C8: whenever the loaded snapshot is a course list, the scrape succeeds
and the computed diff is empty, the run sends no message, leaves `courses.yml`
exactly as it was, logs "No new courses found." and exits normally with
status 0; moreover diffing any course list against itself (the snapshot a
successful save of the same scrape would leave) yields no new courses, so a
second run over an unchanged source is such a no-op run. -/
theorem c8_empty_diff_is_frame_preserving (site : String → Except String Page)
    (file : Option Yaml) (lg : List LogEntry) (cur ex : List Course)
    (hload : load_existing_courses file = .list ex)
    (hget : get_courses site = .ok (lg, cur))
    (hdiff : diff_new_courses cur ex = []) :
    main ⟨site, file⟩ =
      ⟨[.info "Running!"] ++ lg ++ [.info "No new courses found."], [],
        file, .exited 0⟩ ∧
    ∀ cs : List Course, diff_new_courses cs cs = [] := by
  refine ⟨?_, diff_self_eq_nil⟩
  simp only [main, hload, hget, hdiff]

def pageC8 : Page := ⟨some 2, []⟩

def siteC8 : String → Except String Page := fun _ => .ok pageC8

theorem c8_witness :
    main ⟨siteC8, none⟩ =
      ⟨[.info "Running!"] ++ [] ++ [.info "No new courses found."], [],
        none, .exited 0⟩ :=
  (c8_empty_diff_is_frame_preserving siteC8 none [] [] [] rfl rfl rfl).1

/-- C10: a snapshot file that exists but deserializes to nothing makes
`load_existing_courses` return `None` — not a list, and in particular not the
empty course list —, the empty-list default arises only on the file-absent
path (the file-present path returns the deserialized value verbatim), and the
diff's membership check over that `None` then raises `TypeError` as soon as
the scrape is non-empty. -/
theorem c10_null_snapshot_is_not_a_list (site : String → Except String Page)
    (file : Option Yaml) (lg : List LogEntry) (c : Course) (cs : List Course)
    (hfile : file = some .null)
    (hget : get_courses site = .ok (lg, c :: cs)) :
    load_existing_courses file = .null ∧
    (∀ l : List Course, load_existing_courses file ≠ .list l) ∧
    load_existing_courses none = .list [] ∧
    (∀ y : Yaml, load_existing_courses (some y) = y) ∧
    (main ⟨site, file⟩).outcome = .raised "TypeError" := by
  subst hfile
  refine ⟨rfl, fun l h => Yaml.noConfusion h, rfl, fun y => rfl, ?_⟩
  simp only [main, load_existing_courses, hget]

def pageC10 : Page := ⟨some 2, [⟨"T", "D", "B"⟩]⟩

def siteC10 : String → Except String Page := fun _ => .ok pageC10

theorem c10_witness :
    (main ⟨siteC10, some .null⟩).outcome = .raised "TypeError" :=
  (c10_null_snapshot_is_not_a_list siteC10 (some .null) []
    (parse_course ⟨"T", "D", "B"⟩) [] rfl rfl).2.2.2.2

/-- C1 fails on the code: in the claim's scenario — snapshot `[A]`, scrape
`[A, B]` with `B = ("X", "Y", "Z")` new — line 138 evaluates `loop.run(...)`,
a method asyncio event loops do not have, so the run dies with
`AttributeError`: it sends no message at all (not one for `B`) and leaves the
snapshot file with its pre-run content `[A]` instead of persisting `[A, B]`.
This contradicts the code's own docstring and its "New courses found and
posted." log line; the slip is using `run` for `run_until_complete`. -/
theorem c1_new_course_run_raises_attribute_error :
    main ⟨fun url => if url = COURSE_URL then
        .ok ⟨some 2, [⟨"Alter Titel", "01.01.2030", "Alte Beschreibung"⟩, ⟨"X", "Y", "Z"⟩]⟩
      else .error "unreachable",
      some (.list [parse_course ⟨"Alter Titel", "01.01.2030", "Alte Beschreibung"⟩])⟩ =
    ⟨[.info "Running!"], [],
      some (.list [parse_course ⟨"Alter Titel", "01.01.2030", "Alte Beschreibung"⟩]),
      .raised "AttributeError"⟩ := by
  rfl

/-- C3 fails on the code: with three new courses and delivery failing on the
second send, the claimed behavior (log the send error, exit immediately with
status 1, leave the snapshot untouched) is unreachable — the run raises
`AttributeError` at `loop.run(...)` before any send is attempted, so no
"Error:" line is logged and no message at all is sent (first conjunct).  The
claimed failure handling does exist in the never-awaited `post_new_courses`
body: had it run, it would deliver exactly the first message, log the send
error and exit with status 1, abandoning the courses after the failed one
(second conjunct). -/
theorem c3_crash_precedes_any_send :
    main ⟨fun url => if url = COURSE_URL then
        .ok ⟨some 2, [⟨"T1", "D1", "B1"⟩, ⟨"T2", "D2", "B2"⟩, ⟨"T3", "D3", "B3"⟩]⟩
      else .error "unreachable", none⟩ =
      ⟨[.info "Running!"], [], none, .raised "AttributeError"⟩ ∧
    post_new_courses (fun i => if i = 1 then some "Network error" else none) 0
        [parse_course ⟨"T1", "D1", "B1"⟩, parse_course ⟨"T2", "D2", "B2"⟩,
          parse_course ⟨"T3", "D3", "B3"⟩] =
      ⟨[courseMessage (parse_course ⟨"T1", "D1", "B1"⟩)],
        [.info ("Message sent: " ++
          escapeNewlines (courseMessage (parse_course ⟨"T1", "D1", "B1"⟩))),
          .error ("Error: " ++ "Network error")], some 1⟩ :=
  ⟨rfl, rfl⟩

end HackerSchoolBot
